import Mathlib

/-!
Shallow embedding of the Chamois Klipper MMU plugin (`src/chamois.py`) and
verification of its specification claims.

Modelling conventions:
* machine bytes are `Nat` values (0..255 where the source guarantees it);
* byte strings (`bytes`) are `List Nat`;
* fallible Python code returns `Except Err _`;
* real time is a `Nat` clock carried in the state and held constant during a
  modelled run (the claims under verification do not depend on elapsed time);
* the worker thread is modelled synchronously: a queued job is processed by
  the worker before the enqueuing caller polls its future again (the claims'
  scenarios register no pump hooks, so the number of pending-poll iterations
  is unobservable).
-/

namespace Chamois

/-- Command codes, from the class constants of `Chamois` (src lines 20-30). -/
def CMD_PING : Nat := 0x01

/-- `_CMD_GET_STATUS` (src line 21). -/
def CMD_GET_STATUS : Nat := 0xA0

/-- `_CMD_HOME` (src line 22). -/
def CMD_HOME : Nat := 0xA6

/-- `_CMD_DISABLE` (src line 23). -/
def CMD_DISABLE : Nat := 0xA8

/-- `_CMD_HALT` (src line 24). -/
def CMD_HALT : Nat := 0x02

/-- `_CMD_LOAD` (src line 25). -/
def CMD_LOAD : Nat := 0xA9

/-- `_CMD_UNLOAD` (src line 26). -/
def CMD_UNLOAD : Nat := 0xAA

/-- `_CMD_SELECT_TOOL` (src line 27). -/
def CMD_SELECT_TOOL : Nat := 0xAB

/-- `_CMD_RELEASE` (src line 28). -/
def CMD_RELEASE : Nat := 0xAE

/-- `_RESPONSE_CODE_OK` (src line 30). -/
def RESPONSE_CODE_OK : Nat := 0x00

/-- The Python exception kinds the plugin can raise or observe.
`interrupted` is `InterruptedError` (shutdown), `indexError` is the
`IndexError` raised by indexing a too-short `bytes`, `typeError` is the
`TypeError` raised by unpacking a non-iterable value. -/
inductive Err where
  | connectError (msg : String)
  | timeout (msg : String)
  | interrupted (msg : String)
  | runtime (msg : String)
  | indexError
  | typeError (msg : String)
deriving DecidableEq

/-- `except InterruptedError: raise` (src line 118) singles out this kind. -/
def Err.isInterrupted : Err → Bool
  | .interrupted _ => true
  | _ => false

/-- Python `hex(n)` for a non-negative int: `0x` followed by lowercase hex
digits (e.g. `hex(1) = "0x1"`). -/
def pyHex (n : Nat) : String := "0x" ++ String.mk (Nat.toDigits 16 n)

/-- One byte of a UTF-8 continuation (`0x80..0xBF`). -/
def isCont (b : Nat) : Bool := 0x80 ≤ b && b < 0xC0

/-- Classify a would-be UTF-8 lead byte: either a finished ASCII character,
or the pending state `(accumulated value, continuation bytes still needed)`
of a multi-byte sequence, or nothing for an invalid lead byte. -/
def utf8Lead (b : Nat) : Option Char × Option (Nat × Nat) :=
  if b < 0x80 then (some (Char.ofNat b), none)
  else if b < 0xC2 then (none, none)
  else if b ≤ 0xDF then (none, some (b - 0xC0, 1))
  else if b ≤ 0xEF then (none, some (b - 0xE0, 2))
  else if b ≤ 0xF4 then (none, some (b - 0xF0, 3))
  else (none, none)

/-- Byte-at-a-time UTF-8 decoding run: the state is the pending multi-byte
sequence, if any.  A non-continuation byte arriving mid-sequence drops the
pending sequence and is classified as a fresh lead byte. -/
def utf8Run : Option (Nat × Nat) → List Nat → List Char
  | _, [] => []
  | none, b :: rest =>
    match utf8Lead b with
    | (some ch, _) => ch :: utf8Run none rest
    | (none, st) => utf8Run st rest
  | some (acc, n), b :: rest =>
    if isCont b then
      if n ≤ 1 then Char.ofNat (acc * 0x40 + (b - 0x80)) :: utf8Run none rest
      else utf8Run (some (acc * 0x40 + (b - 0x80), n - 1)) rest
    else
      match utf8Lead b with
      | (some ch, _) => ch :: utf8Run none rest
      | (none, st) => utf8Run st rest

/-- Models Python `bytes.decode('utf-8', 'ignore')` (src lines 93 and 95):
decode UTF-8, silently dropping undecodable bytes.  Exact on ASCII input,
which is the only input the verified claims exercise; multi-byte sequences
follow the standard UTF-8 value computation with invalid lead or
continuation bytes skipped. -/
def utf8DecodeIgnore (bs : List Nat) : List Char := utf8Run none bs

/-- Does `needle` match the front of `hay` character by character? -/
def leadMatch : List Char → List Char → Bool
  | [], _ => true
  | _ :: _, [] => false
  | a :: as, b :: bs => a == b && leadMatch as bs

/-- Does `needle` occur as a contiguous run inside `hay`? -/
def occursIn (needle : List Char) : List Char → Bool
  | [] => needle.isEmpty
  | c :: t => leadMatch needle (c :: t) || occursIn needle t

/-- String-level contiguous-substring test (used to state "the error message
contains ..."). -/
def strOccurs (needle hay : String) : Bool := occursIn needle.data hay.data

/-! ## Wire codec -/

/-- Python `struct.pack('<H', n)`: the two little-endian bytes of a `u16`.
The source only calls it with values below `2 ^ 16`. -/
def packU16LE (n : Nat) : List Nat := [n % 256, n / 256 % 256]

/-- The request frame built by `_submit_command` (src lines 125-129):
`bytes([0xAA]) + struct.pack('<H', 1 + len(payload)) + bytes([command_code]) + payload`. -/
def encodeRequest (code : Nat) (payload : List Nat) : List Nat :=
  0xAA :: packU16LE (1 + payload.length) ++ code :: payload

/-- The resynchronization scan of `_wait_for_response` (src lines 146-147):
`while len(received_bytes) > 0 and received_bytes[0] != 0xAA: pop(0)`. -/
def dropToMarker : List Nat → List Nat
  | [] => []
  | b :: rest => if b = 0xAA then b :: rest else dropToMarker rest

/-- One pass of the frame decoder of `_wait_for_response` (src lines 146-159)
over the currently buffered bytes: discard bytes up to the `0xAA` marker;
`none` (keep reading) while fewer than 4 bytes are buffered or the frame is
incomplete; otherwise the response code `buf[3]` and the payload slice
`buf[4 : 4 + length - 1]` (empty when `length ≤ 1`). -/
def decodeFrame (buf0 : List Nat) : Option (Nat × List Nat) :=
  let buf := dropToMarker buf0
  if buf.length < 4 then none
  else
    let len := buf.getD 1 0 + 256 * buf.getD 2 0
    if buf.length < len + 3 then none
    else some (buf.getD 3 0, if 1 < len then (buf.drop 4).take (len - 1) else [])

/-! ## Transport retry loop -/

deriving instance DecidableEq for Except

/-- The observable behaviour of one attempt of `_send_and_receive`:
the outcome of `self._connect()` (src lines 103-108, evaluated outside the
`try`), and — when connected — the combined outcome of `_submit_command`
followed by `_wait_for_response` (src lines 116-117). -/
structure Attempt where
  connect : Except Err Unit
  exchange : Except Err (Nat × List Nat)
deriving DecidableEq

/-- Result of a whole `_send_and_receive` call: what the call returns or
raises (falling off the `while` loop returns Python `None`, modelled as
`.ok none`), together with how many TCP connections were opened. -/
structure TransResult where
  result : Except Err (Option (Nat × List Nat))
  connections : Nat
deriving DecidableEq

/-- The loop body of `_send_and_receive` (src lines 110-123).  The Python
loop `while retry_count < max_retries` is realised by the fuel
`(max_retries - retry_count).toNat`, which is zero exactly when the loop
condition fails; the inner test `retry_count >= self.max_retries` after the
increment (src line 122) is exactly `fuel = 0` for the next iteration.
A connect failure is raised before the `try` is entered, so it is returned
as-is with no retry; `InterruptedError` is re-raised without counting a
retry (src lines 118-119); any other failure after a successful connect
consumes one retry. -/
def sendLoopF (env : Nat → Attempt) (k conns : Nat) : Nat → TransResult
  | 0 => ⟨.ok none, conns⟩
  | fuel + 1 =>
    match (env k).connect with
    | .error e => ⟨.error e, conns⟩
    | .ok _ =>
      match (env k).exchange with
      | .ok r => ⟨.ok (some r), conns + 1⟩
      | .error e =>
        if e.isInterrupted then ⟨.error e, conns + 1⟩
        else if fuel = 0 then ⟨.error e, conns + 1⟩
        else sendLoopF env (k + 1) (conns + 1) fuel

/-- `_send_and_receive(command_code, payload)` (src lines 110-123), with the
per-attempt behaviour of the network abstracted as `env`.  `max_retries`
comes from `config.getint` and may be any integer (src line 59). -/
def sendAndReceive (env : Nat → Attempt) (maxRetries : Int) : TransResult :=
  sendLoopF env 0 0 maxRetries.toNat

/-- The tuple unpacking `response_code, response_payload = self._send_and_receive(...)`
in the worker (src line 85): unpacking Python `None` raises `TypeError`. -/
def unpackResult : Except Err (Option (Nat × List Nat)) → Except Err (Nat × List Nat)
  | .error e => .error e
  | .ok none => .error (.typeError "cannot unpack non-iterable NoneType object")
  | .ok (some r) => .ok r

/-! ## Status cache and worker

For the worker-level and orchestrator-level claims, one whole
`_send_and_receive` round-trip is abstracted as a deterministic `Device`
function from the request to the raised error or the decoded
`(response_code, payload)` pair; the retry machinery underneath it is the
`sendLoopF`/`sendAndReceive` model above. -/

/-- Deterministic device behaviour: request command code and payload to the
outcome of one `_send_and_receive` call. -/
def Device : Type := Nat → List Nat → Except Err (Nat × List Nat)

/-- The cached device status: fields `_initialized` .. `_last_status_update`
of `Chamois` (src lines 47-52).  The two flags start as Python int `0`
(falsy) and become `bool` after the first successful refresh; both are
modelled as `Bool`. -/
structure StatusCache where
  initialized : Bool
  loaded : Bool
  selected_index : Nat
  total_extruded_distance : Nat
  number_of_tool_change : Nat
  last_status_update : Nat
deriving DecidableEq

/-- The configuration fields the modelled code reads (src lines 60-62), plus
the set of registered gcode hook macros (`self.gcode.gcode_handlers`
membership tests, src lines 203, 208, 214, 224, 309). -/
structure Config where
  number_of_toolhead : Nat
  mmu_keepalive : Nat
  hooks : List String
deriving DecidableEq

/-- The observable worker-side state: the status cache, the (frozen) current
clock, the chronological list of wire transactions `(command_code, payload)`
issued through `_send_and_receive`, and the chronological list of hook
scripts run through `run_script_from_command`. -/
structure WState where
  cache : StatusCache
  now : Nat
  log : List (Nat × List Nat)
  hookLog : List String
deriving DecidableEq

/-- Python `int.from_bytes(bs, 'little')` on a byte list of any length. -/
def leBytes : List Nat → Nat
  | [] => 0
  | b :: rest => b + 256 * leBytes rest

/-- The field assignments of `_update_status` (src lines 176-181), executed
in source order with Python indexing semantics: `payload[i]` on a too-short
`bytes` raises `IndexError` after the earlier assignments have already taken
effect, while the slices `payload[3:11]` and `payload[11:19]` never raise.
Returns the (possibly partially updated) cache and whether an `IndexError`
was raised before `_last_status_update` could be set. -/
def parseStatus (c : StatusCache) (p : List Nat) (now : Nat) : StatusCache × Bool :=
  match p.get? 0 with
  | none => (c, true)
  | some b0 =>
    let c0 := { c with initialized := b0 ≠ 0 }
    match p.get? 1 with
    | none => (c0, true)
    | some b1 =>
      let c1 := { c0 with loaded := b1 ≠ 0 }
      match p.get? 2 with
      | none => (c1, true)
      | some b2 =>
        ({ c1 with
            selected_index := b2
            total_extruded_distance := leBytes ((p.drop 3).take 8)
            number_of_tool_change := leBytes ((p.drop 11).take 8)
            last_status_update := now }, false)

/-- `_update_status(forced)` (src lines 164-183).  If not forced and the
last refresh is younger than `mmu_keepalive`, do nothing.  Otherwise run a
`GET_STATUS` transaction; every failure — transport error, non-OK response
code (the `RuntimeError` of src line 173), or `IndexError` during parsing —
is swallowed by the enclosing `try`/`except`, leaving whatever field
assignments had already executed. -/
def updateStatus (dev : Device) (cfg : Config) (s : WState) (forced : Bool) : WState :=
  if forced = false ∧ s.now - s.cache.last_status_update < cfg.mmu_keepalive then s
  else
    let s1 : WState := { s with log := s.log ++ [(CMD_GET_STATUS, ([] : List Nat))] }
    match dev CMD_GET_STATUS [] with
    | .error _ => s1
    | .ok (rc, p) =>
      if rc = RESPONSE_CODE_OK then
        { s1 with cache := (parseStatus s1.cache p s1.now).1 }
      else s1

/-- How the worker resolves a job's future from a completed transaction
(src lines 87-95).  OK response: `set_result(response_payload)`.  Non-OK
with empty response payload: `RuntimeError` carrying the hex response code.
Non-OK with response payload: `RuntimeError` whose message interpolates
`payload.decode('utf-8', 'ignore')` — `payload` here is the enqueued
REQUEST payload (src line 95), not `response_payload` as on the adjacent
log line 93. -/
def resolveResponse (payload : List Nat) (rc : Nat) (rp : List Nat) :
    Except Err (List Nat) :=
  if rc = RESPONSE_CODE_OK then .ok rp
  else if rp.length = 0 then
    .error (.runtime ("Command failed with response code: " ++ pyHex rc))
  else
    .error (.runtime ("Command failed with response code: " ++ pyHex rc ++
      " error: " ++ String.mk (utf8DecodeIgnore payload)))

/-- One iteration of `_worker_thread` processing one job (src lines 82-101):
run the transaction, run the forced status refresh (its own errors
swallowed), resolve the future from the transaction's own outcome, and run
the opportunistic non-forced refresh from the `finally` block. -/
def processJob (dev : Device) (cfg : Config) (s : WState) (cmd : Nat)
    (payload : List Nat) : WState × Except Err (List Nat) :=
  let s1 : WState := { s with log := s.log ++ [(cmd, payload)] }
  match dev cmd payload with
  | .error e => (updateStatus dev cfg s1 false, .error e)
  | .ok (rc, rp) =>
    (updateStatus dev cfg (updateStatus dev cfg s1 true) false,
      resolveResponse payload rc rp)

/-! ## Tool-change orchestrator -/

/-- Outcome of `cmd_CHAMOIS_TOOL_CHANGE` as seen by the gcode layer. -/
inductive TCResult where
  | completed (index : Nat)
  | alreadyLoaded (index : Nat)
  | failed (e : Err)
  | invalidIndex
deriving DecidableEq

/-- The pattern `if NAME in self.gcode.gcode_handlers: run_script(NAME);
wait_moves()` (src lines 202-205, 208-210, 223-226, 309-311).  Hook scripts
touch only the motion system, so their only modelled effect is the record
of having run. -/
def runHookIfRegistered (hooks : List String) (s : WState) (name : String) : WState :=
  if name ∈ hooks then { s with hookLog := s.hookLog ++ [name] } else s

/-- `_unload` (src lines 207-221): before-unload hook, then the UNLOAD job;
the worker is modelled as completing the job before the first
`unload_future.done()` poll, so the on-unload pump body runs zero times. -/
def unloadSeq (dev : Device) (cfg : Config) (s : WState) :
    WState × Except Err (List Nat) :=
  let sB := runHookIfRegistered cfg.hooks s "CHAMOIS_BEFORE_UNLOAD"
  processJob dev cfg sB CMD_UNLOAD []

/-- `cmd_CHAMOIS_TOOL_CHANGE` after the home / early-exit branch (src lines
294-312): park hook, unload if loaded, SELECT_TOOL with the u16-LE index,
LOAD (modelled as completing before the first `load_future.done()` poll,
then the unconditional `_perform_on_load()` of src line 302), RELEASE, and
the after-load hook. -/
def toolChangeRest (dev : Device) (cfg : Config) (s : WState) (index : Nat) :
    WState × TCResult :=
  let sP := runHookIfRegistered cfg.hooks s "CHAMOIS_PARK"
  match (if sP.cache.loaded = true then unloadSeq dev cfg sP
         else (sP, Except.ok ([] : List Nat))) with
  | (sU, .error e) => (sU, .failed e)
  | (sU, .ok _) =>
    match processJob dev cfg sU CMD_SELECT_TOOL (packU16LE index) with
    | (sS, .error e) => (sS, .failed e)
    | (sS, .ok _) =>
      match processJob dev cfg sS CMD_LOAD [] with
      | (sL0, rLoad) =>
        let sL := runHookIfRegistered cfg.hooks sL0 "CHAMOIS_ON_LOAD"
        match rLoad with
        | .error e => (sL, .failed e)
        | .ok _ =>
          match processJob dev cfg sL CMD_RELEASE [] with
          | (sR, .error e) => (sR, .failed e)
          | (sR, .ok _) =>
            (runHookIfRegistered cfg.hooks sR "CHAMOIS_AFTER_LOAD",
              .completed index)

/-- `cmd_CHAMOIS_TOOL_CHANGE(gcmd, index)` (src lines 280-314): index range
check, PING, then either HOME (when the cached status after the PING job's
forced refresh shows not initialized) or the early exit (already loaded on
the requested index), then the rest of the sequence.  Any raised error is
wrapped by the outer `except` into the gcode error (`.failed`). -/
def toolChange (dev : Device) (cfg : Config) (s0 : WState) (index : Nat) :
    WState × TCResult :=
  if index < cfg.number_of_toolhead then
    match processJob dev cfg s0 CMD_PING [] with
    | (s1, .error e) => (s1, .failed e)
    | (s1, .ok _) =>
      if s1.cache.initialized = false then
        match processJob dev cfg s1 CMD_HOME [] with
        | (s2, .error e) => (s2, .failed e)
        | (s2, .ok _) => toolChangeRest dev cfg s2 index
      else if s1.cache.loaded = true ∧ s1.cache.selected_index = index then
        (s1, .alreadyLoaded index)
      else
        toolChangeRest dev cfg s1 index
  else (s0, .invalidIndex)

/-! ## Concrete fixtures used by the scenario claims -/

/-- Default configuration of the scenarios: `number_of_toolhead = 4`,
`mmu_keepalive = 10` (the source defaults, src lines 60 and 62), no gcode
hook macros registered. -/
def cfg0 : Config := ⟨4, 10, []⟩

/-- Fresh engine state: all status fields zero (src lines 47-52), empty
transaction and hook logs, clock at 0. -/
def s0 : WState := ⟨⟨false, false, 0, 0, 0, 0⟩, 0, [], []⟩

/-- A 19-byte `GET_STATUS` payload reporting everything zero / not
initialized / not loaded. -/
def statusZero19 : List Nat := List.replicate 19 0

/-- Device for the C3 scenario: every command succeeds with an empty
payload; `GET_STATUS` reports a device that is neither initialized nor
loaded. -/
def devC3 : Device := fun cmd _ =>
  if cmd = CMD_GET_STATUS then .ok (0, statusZero19) else .ok (0, [])

/-- A 19-byte `GET_STATUS` payload reporting initialized, loaded, tool 2
selected. -/
def statusLoaded2 : List Nat := [1, 1, 2] ++ List.replicate 16 0

/-- Device for the C5 scenario: every command succeeds; `GET_STATUS`
reports the device initialized and loaded on tool index 2. -/
def devC5 : Device := fun cmd _ =>
  if cmd = CMD_GET_STATUS then .ok (0, statusLoaded2) else .ok (0, [])

/-- The worker state after the PING job of the C5 scenario: the forced
refresh parsed `statusLoaded2`, and the wire log holds the PING and the
refresh `GET_STATUS`. -/
def pingStateC5 : WState :=
  ⟨⟨true, true, 2, 0, 0, 0⟩, 0, [(CMD_PING, []), (CMD_GET_STATUS, [])], []⟩

/-- The 19-byte `GET_STATUS` payload of the C6 scenario:
`[1, 1, 3]`, then `1000` and `7` as little-endian u64. -/
def statusC6 : List Nat :=
  [1, 1, 3, 232, 3, 0, 0, 0, 0, 0, 0, 7, 0, 0, 0, 0, 0, 0, 0]

/-- Device for the C6 scenario. -/
def devC6 : Device := fun cmd _ =>
  if cmd = CMD_GET_STATUS then .ok (0, statusC6) else .ok (0, [])

/-- The bytes of `b"jam"`. -/
def jamBytes : List Nat := [106, 97, 109]

/-- Device for the C2 scenario: UNLOAD is answered with response code
`0x01` and payload `b"jam"`; the status refresh fails (and is swallowed). -/
def devC2 : Device := fun cmd _ =>
  if cmd = CMD_UNLOAD then .ok (1, jamBytes)
  else .error (.timeout "status refresh timed out")

/-- Device for the C9 counterexample: the command itself succeeds, but
`GET_STATUS` answers OK with a 2-byte payload, so `_update_status` assigns
`_initialized` and `_loaded` and then raises `IndexError` at `payload[2]`. -/
def devC9 : Device := fun cmd _ =>
  if cmd = CMD_GET_STATUS then .ok (0, [1, 1]) else .ok (0, [])

/-- Device for the C9 witness: the command succeeds and the status refresh
fails at the transport level. -/
def devC9W : Device := fun cmd _ =>
  if cmd = CMD_GET_STATUS then .error (.timeout "status refresh timed out")
  else .ok (0, [])

/-- Transport environment for the C1 counterexample: the connect of the
first attempt fails; every later attempt would succeed outright. -/
def envC1 : Nat → Attempt
  | 0 => ⟨.error (.connectError "connection refused"), .ok (0, [])⟩
  | _ + 1 => ⟨.ok (), .ok (0, [])⟩

/-- Transport environment for the C1 witness: the first attempt connects
but its exchange fails; the second attempt fails to connect. -/
def envC1b : Nat → Attempt
  | 0 => ⟨.ok (), .error (.timeout "read timed out")⟩
  | _ + 1 => ⟨.error (.connectError "no route to host"), .ok (0, [])⟩

/-- Transport environment where every attempt connects and then times out. -/
def envAllFail : Nat → Attempt := fun _ => ⟨.ok (), .error (.timeout "read timed out")⟩

/-- Transport environment where the first two attempts connect and fail in
the exchange and the third succeeds. -/
def envThirdOk : Nat → Attempt
  | 0 => ⟨.ok (), .error (.timeout "read timed out")⟩
  | 1 => ⟨.ok (), .error (.runtime "broken pipe")⟩
  | _ + 2 => ⟨.ok (), .ok (0, [42])⟩

/-! ## Shared lemmas -/

/-- Stepping `sendLoopF` over one attempt that connects and then fails with
a non-interrupt error, with at least one retry left. -/
lemma sendLoopF_step (env : Nat → Attempt) (k conns fuel : Nat) (e : Err)
    (hc : (env k).connect = .ok ()) (he : (env k).exchange = .error e)
    (hni : e.isInterrupted = false) (hf : fuel ≠ 0) :
    sendLoopF env k conns (fuel + 1) = sendLoopF env (k + 1) (conns + 1) fuel := by
  simp [sendLoopF, hc, he, hni, hf]

/-- Running `sendLoopF` past `k` attempts that all connect and fail with
non-interrupt errors: the attempt counter and the connection count advance
together. -/
lemma sendLoopF_skip (env : Nat → Attempt) (N k : Nat) (hk : k < N)
    (hfail : ∀ j, j < k → (env j).connect = .ok () ∧
      ∃ e, (env j).exchange = .error e ∧ e.isInterrupted = false) :
    sendLoopF env 0 0 N = sendLoopF env k k (N - k) := by
  induction k with
  | zero => simp
  | succ n ih =>
    obtain ⟨hc, e, he, hni⟩ := hfail n (by omega)
    have h1 : N - n = (N - (n + 1)) + 1 := by omega
    rw [ih (by omega) (fun j hj => hfail j (by omega)), h1,
      sendLoopF_step env n n (N - (n + 1)) e hc he hni (by omega)]

/-! ## Claim C1 -/

/-- C1 counterexample: with `max_retries = 3` and a transport whose first
attempt fails in `self._connect()` (every later attempt would succeed),
`_send_and_receive` surfaces the connect error at once, after zero opened
connections — a connect failure on an attempt before the last does
propagate to the caller, because `self._connect()` is evaluated outside the
`try` block (src line 114). -/
theorem C1_connect_failure_propagates_cex :
    sendAndReceive envC1 3 = ⟨.error (.connectError "connection refused"), 0⟩ := by
  decide

/-- C1 (amended): a failure of `self._connect()` on any attempt propagates
to the caller immediately, with no further retry and no new connection;
the retry-with-a-fresh-connection policy of `_send_and_receive` applies
only to errors raised after a successful connect. -/
theorem C1_connect_failure_no_retry (env : Nat → Attempt) (maxR : Int) (k : Nat)
    (e : Err) (hk : (k : Int) < maxR)
    (hfail : ∀ j, j < k → (env j).connect = .ok () ∧
      ∃ e2, (env j).exchange = .error e2 ∧ e2.isInterrupted = false)
    (hc : (env k).connect = .error e) :
    sendAndReceive env maxR = ⟨.error e, k⟩ := by
  have hkN : k < maxR.toNat := by omega
  rw [sendAndReceive, sendLoopF_skip env maxR.toNat k hkN hfail]
  have h1 : maxR.toNat - k = (maxR.toNat - k - 1) + 1 := by omega
  rw [h1]
  simp [sendLoopF, hc]

/-- C1 witness: the amended statement at a concrete transport whose first
attempt fails after connecting and whose second attempt fails to connect,
with `max_retries = 3`. -/
theorem C1_connect_failure_no_retry_witness :
    sendAndReceive envC1b 3 = ⟨.error (.connectError "no route to host"), 1⟩ :=
  C1_connect_failure_no_retry envC1b 3 1 (.connectError "no route to host")
    (by decide)
    (fun j hj => by
      match j, hj with
      | 0, _ => exact ⟨rfl, .timeout "read timed out", rfl, rfl⟩)
    rfl

/-! ## Claim C4 -/

/-- C4: first, with `max_retries = N ≥ 1` and every attempt connecting and
then failing (submit/receive) with a non-interrupt error, `_send_and_receive`
fails after exactly `N` attempts (`N` opened connections) and raises the
error of the last, `N`-th attempt; second, with `max_retries = 3`, two such
failing attempts followed by a successful third, it succeeds and has opened
exactly 3 connections. -/
theorem C4_retry_semantics :
    (∀ (env : Nat → Attempt) (errs : Nat → Err) (N : Nat), 1 ≤ N →
      (∀ j, j < N → (env j).connect = .ok ()) →
      (∀ j, j < N → (env j).exchange = .error (errs j) ∧
        (errs j).isInterrupted = false) →
      sendAndReceive env (N : Int) = ⟨.error (errs (N - 1)), N⟩) ∧
    (∀ (env : Nat → Attempt) (e0 e1 : Err) (r : Nat × List Nat),
      (env 0).connect = .ok () → (env 0).exchange = .error e0 →
      e0.isInterrupted = false →
      (env 1).connect = .ok () → (env 1).exchange = .error e1 →
      e1.isInterrupted = false →
      (env 2).connect = .ok () → (env 2).exchange = .ok r →
      sendAndReceive env (3 : Int) = ⟨.ok (some r), 3⟩) := by
  constructor
  · intro env errs N hN hconn hexch
    have hskip := sendLoopF_skip env N (N - 1) (by omega)
      (fun j hj => ⟨hconn j (by omega), errs j, (hexch j (by omega)).1,
        (hexch j (by omega)).2⟩)
    have htn : ((N : Int)).toNat = N := Int.toNat_natCast N
    have hfuel : N - (N - 1) = 0 + 1 := by omega
    have hconns : N - 1 + 1 = N := by omega
    rw [sendAndReceive, htn, hskip, hfuel]
    obtain ⟨he, hni⟩ := hexch (N - 1) (by omega)
    simp [sendLoopF, hconn (N - 1) (by omega), he, hni, hconns]
  · intro env e0 e1 r h0c h0e h0n h1c h1e h1n h2c h2e
    have hskip := sendLoopF_skip env 3 2 (by omega) (fun j hj => by
      match j, hj with
      | 0, _ => exact ⟨h0c, e0, h0e, h0n⟩
      | 1, _ => exact ⟨h1c, e1, h1e, h1n⟩)
    have htn : ((3 : Int)).toNat = 3 := rfl
    rw [sendAndReceive, htn, hskip]
    simp [sendLoopF, h2c, h2e]

/-- C4 witness: the always-failing part at `N = 2` with a transport that
times out on every attempt, and the succeed-on-third part at the concrete
transport `envThirdOk`. -/
theorem C4_retry_semantics_witness :
    sendAndReceive envAllFail 2 = ⟨.error (.timeout "read timed out"), 2⟩ ∧
    sendAndReceive envThirdOk 3 = ⟨.ok (some (0, [42])), 3⟩ :=
  ⟨C4_retry_semantics.1 envAllFail (fun _ => .timeout "read timed out") 2
      (by decide) (fun _ _ => rfl) (fun _ _ => ⟨rfl, rfl⟩),
    C4_retry_semantics.2 envThirdOk (.timeout "read timed out")
      (.runtime "broken pipe") (0, [42]) rfl rfl rfl rfl rfl rfl rfl rfl⟩

/-! ## Claim C10 -/

/-- C10: with `max_retries ≤ 0` the loop body of `_send_and_receive` never
runs — no connection is opened, nothing is sent, no error is raised, and
the call returns Python `None` — so the worker's tuple unpacking of the
result raises a `TypeError` rather than any transport error. -/
theorem C10_nonpositive_retries (env : Nat → Attempt) (maxR : Int)
    (h : maxR ≤ 0) :
    sendAndReceive env maxR = ⟨.ok none, 0⟩ ∧
    unpackResult (sendAndReceive env maxR).result =
      .error (.typeError "cannot unpack non-iterable NoneType object") := by
  have h0 : maxR.toNat = 0 := by omega
  rw [sendAndReceive, h0]
  exact ⟨rfl, rfl⟩

/-- C10 witness: the statement at `max_retries = -1` over a transport that
would fail every attempt (and is never consulted). -/
theorem C10_nonpositive_retries_witness :
    sendAndReceive envAllFail (-1) = ⟨.ok none, 0⟩ ∧
    unpackResult (sendAndReceive envAllFail (-1)).result =
      .error (.typeError "cannot unpack non-iterable NoneType object") :=
  C10_nonpositive_retries envAllFail (-1) (by decide)

/-! ## Claim C2 -/

/-- C2: the UNLOAD command answered with response code `0x01` and response
payload `b"jam"` resolves the job's future with a `RuntimeError` whose
message interpolates the REQUEST payload (empty for UNLOAD), not the
response payload: the message contains `"0x1"` but not `"jam"`, although
decoding the response payload would have produced `"jam"`.  This evaluates
the code at the claim's failing input (the slip is at src line 95, which
reads `payload` where the adjacent log line 93 reads `response_payload`). -/
theorem C2_error_uses_request_payload :
    (processJob devC2 cfg0 s0 CMD_UNLOAD []).2 =
      .error (.runtime "Command failed with response code: 0x1 error: ") ∧
    strOccurs "0x1" "Command failed with response code: 0x1 error: " = true ∧
    strOccurs "jam" "Command failed with response code: 0x1 error: " = false ∧
    String.mk (utf8DecodeIgnore jamBytes) = "jam" := by
  decide

/-! ## Claim C3 -/

/-- C3 counterexample: in the spec's scenario (PING ok, not initialized,
HOME ok, no hooks, not loaded, SELECT_TOOL(2) ok, LOAD ok, RELEASE ok) the
tool change does report success with index 2, but 10 wire transactions are
sent, not 5: the worker follows every command with a forced `GET_STATUS`
refresh (src line 86). -/
theorem C3_transaction_count_cex :
    (toolChange devC3 cfg0 s0 2).2 = .completed 2 ∧
    (toolChange devC3 cfg0 s0 2).1.log.length = 10 ∧
    ¬ (toolChange devC3 cfg0 s0 2).1.log.length = 5 := by
  decide

/-- C3 (amended): in that scenario the tool change reports success with
index 2 and issues exactly 5 command transactions, in order PING, HOME,
SELECT_TOOL (payload `[2, 0]`), LOAD, RELEASE; each is immediately followed
by the worker's forced `GET_STATUS` refresh transaction, for 10 device
transactions in total, and no hook script runs. -/
theorem C3_scenario_trace :
    toolChange devC3 cfg0 s0 2 =
      (⟨⟨false, false, 0, 0, 0, 0⟩, 0,
        [(CMD_PING, []), (CMD_GET_STATUS, []),
         (CMD_HOME, []), (CMD_GET_STATUS, []),
         (CMD_SELECT_TOOL, [2, 0]), (CMD_GET_STATUS, []),
         (CMD_LOAD, []), (CMD_GET_STATUS, []),
         (CMD_RELEASE, []), (CMD_GET_STATUS, [])], []⟩,
       .completed 2) := by
  decide

/-! ## Claim C5 -/

/-- C5: when the PING job succeeds and leaves the cached status showing
initialized, loaded, and `selected_index` equal to the requested index, the
tool change returns "already loaded" success in exactly the post-PING
state: no further device command (home, park, unload, select, load or
release) is issued and no hook runs. -/
theorem C5_early_exit (dev : Device) (cfg : Config) (s : WState) (idx : Nat)
    (s1 : WState) (rp : List Nat)
    (hidx : idx < cfg.number_of_toolhead)
    (hping : processJob dev cfg s CMD_PING [] = (s1, .ok rp))
    (hinit : s1.cache.initialized = true)
    (hloaded : s1.cache.loaded = true)
    (hsel : s1.cache.selected_index = idx) :
    toolChange dev cfg s idx = (s1, .alreadyLoaded idx) := by
  unfold toolChange
  rw [if_pos hidx, hping]
  simp [hinit, hloaded, hsel]

/-- C5 witness: the concrete scenario where `GET_STATUS` reports tool 2
already loaded on an initialized device and tool change 2 is requested:
the final state is exactly the post-PING state, whose wire log is
`[PING, GET_STATUS]`. -/
theorem C5_early_exit_witness :
    toolChange devC5 cfg0 s0 2 = (pingStateC5, .alreadyLoaded 2) :=
  C5_early_exit devC5 cfg0 s0 2 pingStateC5 [] (by decide) (by decide) rfl rfl rfl

/-! ## Claim C6 -/

/-- C6: a forced status refresh whose `GET_STATUS` transaction succeeds with
the 19-byte payload `[1, 1, 3, u64le 1000, u64le 7]` sets the cached status
to initialized, loaded, `selected_index = 3`,
`total_extruded_distance = 1000`, `tool_change_count = 7`, and stamps
`_last_status_update` with the current time — from any prior cache contents
and any current time. -/
theorem C6_status_refresh (c : StatusCache) (now : Nat)
    (lg : List (Nat × List Nat)) (hl : List String) :
    updateStatus devC6 cfg0 ⟨c, now, lg, hl⟩ true =
      ⟨⟨true, true, 3, 1000, 7, now⟩, now, lg ++ [(CMD_GET_STATUS, [])], hl⟩ := by
  rfl

/-- C6 witness: the refresh applied to a fresh cache at clock 5. -/
theorem C6_status_refresh_witness :
    updateStatus devC6 cfg0 ⟨s0.cache, 5, [], []⟩ true =
      ⟨⟨true, true, 3, 1000, 7, 5⟩, 5, [(CMD_GET_STATUS, [])], []⟩ :=
  C6_status_refresh s0.cache 5 [] []

/-! ## Claim C9 -/

/-- Shared helper for C9: a status refresh whose `GET_STATUS` transaction
raises, or answers with a non-OK response code, leaves the cache unchanged
(the error is swallowed before any field assignment). -/
lemma updateStatus_cache_of_fail (dev : Device) (cfg : Config) (t : WState)
    (b : Bool)
    (hgs : (∃ e, dev CMD_GET_STATUS [] = .error e) ∨
      ∃ rcS pS, dev CMD_GET_STATUS [] = .ok (rcS, pS) ∧
        ¬ rcS = RESPONSE_CODE_OK) :
    (updateStatus dev cfg t b).cache = t.cache := by
  unfold updateStatus
  split
  · rfl
  · rcases hgs with ⟨e, he⟩ | ⟨rcS, pS, hok, hne⟩
    · rw [he]
    · rw [hok]
      simp [hne]

/-- C9 counterexample: with a device that answers the command itself OK and
answers `GET_STATUS` OK with the 2-byte payload `[1, 1]`, the refresh fails
(`IndexError` at `payload[2]`, src line 178) yet the cached `_initialized`
flag has already been flipped to true — the failed refresh does change
cached status fields, contradicting the claim's "left unchanged"; the job's
own result is still resolved from the command's response. -/
theorem C9_partial_update_cex :
    (processJob devC9 cfg0 s0 CMD_PING []).2 = .ok [] ∧
    (parseStatus s0.cache [1, 1] 0).2 = true ∧
    s0.cache.initialized = false ∧
    (processJob devC9 cfg0 s0 CMD_PING []).1.cache.initialized = true := by
  decide

/-- C9 (amended): when the command's own transaction succeeds, the job's
future is always resolved from the command's own response — the refresh
outcome never reaches it; and when the refresh fails before any field
assignment (a transport error, or a non-OK `GET_STATUS` response code), the
cached status fields are left unchanged.  (An OK `GET_STATUS` response with
a payload shorter than 3 bytes can instead leave a partial update, as the
counterexample shows.) -/
theorem C9_refresh_swallowed (dev : Device) (cfg : Config) (s : WState)
    (cmd : Nat) (p : List Nat) (rc : Nat) (rp : List Nat)
    (hcmd : dev cmd p = .ok (rc, rp)) :
    (processJob dev cfg s cmd p).2 = resolveResponse p rc rp ∧
    (((∃ e, dev CMD_GET_STATUS [] = .error e) ∨
        ∃ rcS pS, dev CMD_GET_STATUS [] = .ok (rcS, pS) ∧
          ¬ rcS = RESPONSE_CODE_OK) →
      (processJob dev cfg s cmd p).1.cache = s.cache) := by
  unfold processJob
  rw [hcmd]
  exact ⟨rfl, fun hgs => by
    rw [updateStatus_cache_of_fail dev cfg _ false hgs,
      updateStatus_cache_of_fail dev cfg _ true hgs]⟩

/-- C9 witness: a PING whose refresh times out at the transport level — the
job result is the PING's own response and the cache is untouched. -/
theorem C9_refresh_swallowed_witness :
    (processJob devC9W cfg0 s0 CMD_PING []).2 = resolveResponse [] 0 [] ∧
    (processJob devC9W cfg0 s0 CMD_PING []).1.cache = s0.cache :=
  have h := C9_refresh_swallowed devC9W cfg0 s0 CMD_PING [] 0 [] rfl
  ⟨h.1, h.2 (Or.inl ⟨.timeout "status refresh timed out", rfl⟩)⟩

/-! ## Shared codec lemmas -/

/-- The resynchronization scan keeps a buffer whose head is the marker. -/
lemma dropToMarker_marker (t : List Nat) :
    dropToMarker (0xAA :: t) = 0xAA :: t := by
  simp [dropToMarker]

/-- Bytes with no `0xAA` in front of a buffer are discarded whole by the
resynchronization scan. -/
lemma dropToMarker_append (g t : List Nat) (hg : ∀ b ∈ g, ¬ b = 0xAA) :
    dropToMarker (g ++ t) = dropToMarker t := by
  induction g with
  | nil => simp
  | cons a as ih =>
    have ha : ¬ a = 0xAA := hg a (List.mem_cons_self a as)
    simp only [List.cons_append, dropToMarker, if_neg ha]
    exact ih (fun b hb => hg b (List.mem_cons_of_mem a hb))

/-- Decoding a buffer that starts with the marker and holds a complete
frame yields the response-code byte and the payload slice. -/
lemma decodeFrame_marker_head (lo hi rcByte : Nat) (rest : List Nat)
    (hcomplete : lo + 256 * hi ≤ rest.length + 1) :
    decodeFrame (0xAA :: lo :: hi :: rcByte :: rest) =
      some (rcByte,
        if 1 < lo + 256 * hi then rest.take (lo + 256 * hi - 1) else []) := by
  have h4 : ¬ ((0xAA :: lo :: hi :: rcByte :: rest).length < 4) := by
    simp only [List.length_cons]
    omega
  have hfull : ¬ ((0xAA :: lo :: hi :: rcByte :: rest).length <
      lo + 256 * hi + 3) := by
    simp only [List.length_cons]
    omega
  simp only [decodeFrame, dropToMarker_marker, List.getD_cons_succ,
    List.getD_cons_zero, List.drop_succ_cons, List.drop_zero,
    if_neg h4, if_neg hfull]

/-- A garbage prefix with no marker byte does not change what the decoder
returns. -/
lemma decodeFrame_append (g f : List Nat) (hg : ∀ b ∈ g, ¬ b = 0xAA) :
    decodeFrame (g ++ f) = decodeFrame f := by
  simp only [decodeFrame, dropToMarker_append g f hg]

/-! ## Claim C7 -/

/-- C7: for any command code (a byte) and any payload with
`1 + len(payload) ≤ 65535`, decoding the request frame built by
`_submit_command` with the response decoder of `_wait_for_response`
recovers exactly the code byte and the payload (round-trip framing). -/
theorem C7_round_trip (code : Nat) (payload : List Nat)
    (_hcode : code ≤ 255) (hlen : 1 + payload.length ≤ 65535) :
    decodeFrame (encodeRequest code payload) = some (code, payload) := by
  have hdiv : (1 + payload.length) / 256 % 256 = (1 + payload.length) / 256 :=
    Nat.mod_eq_of_lt (by omega)
  have hfield : (1 + payload.length) % 256 +
      256 * ((1 + payload.length) / 256 % 256) = 1 + payload.length := by
    rw [hdiv, Nat.mod_add_div]
  have h := decodeFrame_marker_head ((1 + payload.length) % 256)
    ((1 + payload.length) / 256 % 256) code payload (by omega)
  rw [hfield] at h
  have henc : encodeRequest code payload =
      0xAA :: (1 + payload.length) % 256 ::
        (1 + payload.length) / 256 % 256 :: code :: payload := rfl
  rw [henc, h]
  rcases payload with _ | ⟨p, ps⟩
  · simp
  · have hone : 1 < 1 + (p :: ps).length := by simp
    have htake : 1 + (p :: ps).length - 1 = (p :: ps).length := by omega
    rw [if_pos hone, htake, List.take_length]

/-- C7 witness: the round trip at command code `0xA9` with payload
`[1, 2, 3]`. -/
theorem C7_round_trip_witness :
    decodeFrame (encodeRequest 0xA9 [1, 2, 3]) = some (0xA9, [1, 2, 3]) :=
  C7_round_trip 0xA9 [1, 2, 3] (by decide) (by decide)

/-! ## Claim C8 -/

/-- C8: a buffer made of garbage bytes (none equal to `0xAA`) followed by a
complete frame decodes exactly as the frame alone would: the scan discards
the garbage, resynchronizes on the marker, and returns the frame's
response code and payload. -/
theorem C8_resync (g : List Nat) (lo hi rcByte : Nat) (rest : List Nat)
    (hg : ∀ b ∈ g, ¬ b = 0xAA)
    (hcomplete : lo + 256 * hi ≤ rest.length + 1) :
    decodeFrame (g ++ 0xAA :: lo :: hi :: rcByte :: rest) =
        decodeFrame (0xAA :: lo :: hi :: rcByte :: rest) ∧
      decodeFrame (g ++ 0xAA :: lo :: hi :: rcByte :: rest) =
        some (rcByte,
          if 1 < lo + 256 * hi then rest.take (lo + 256 * hi - 1) else []) := by
  have h := decodeFrame_append g (0xAA :: lo :: hi :: rcByte :: rest) hg
  exact ⟨h, h.trans (decodeFrame_marker_head lo hi rcByte rest hcomplete)⟩

/-- C8 witness: garbage `[1, 2, 3]` before the complete frame
`AA 03 00 05 07 08` still decodes to response code 5 with payload
`[7, 8]`. -/
theorem C8_resync_witness :
    decodeFrame ([1, 2, 3] ++ 0xAA :: 3 :: 0 :: 5 :: [7, 8]) =
        decodeFrame (0xAA :: 3 :: 0 :: 5 :: [7, 8]) ∧
      decodeFrame ([1, 2, 3] ++ 0xAA :: 3 :: 0 :: 5 :: [7, 8]) =
        some (5, if 1 < 3 + 256 * 0 then [7, 8].take (3 + 256 * 0 - 1) else []) :=
  C8_resync [1, 2, 3] 3 0 5 [7, 8] (by decide) (by decide)

end Chamois
